import Mathlib

/-!
Verification development for the wellness coaching/protocol engine.

Definitions below are shallow embeddings of the Python sources under
`packages/telegram-bot/src/wellness_bot/`:

- `coaching/fsm.py` — the 2-level conversation + practice FSM;
- `coaching/coach_policy.py` — the coach policy engine;
- `coaching/opportunity_scorer.py` — the proactive opportunity scorer;
- `protocol/safety.py` — the two-layer safety classifier;
- `protocol/llm_adapter.py` — the generation adapter and circuit breaker.

Python floats are modelled as rationals (`ℚ`), Python `None`-able values as
`Option`, raised-and-caught exceptions as `Option` results, and methods that
mutate `self` as functions returning the new state.  Regex searching and the
generative backend are external effects; they enter the model as explicit
function parameters, so every theorem quantifies over their behaviour.
-/

namespace WellnessBot

/-! ## Enums from `protocol/types.py` -/

/-- `ConversationState` — `protocol/types.py`, 7 members. -/
inductive ConversationState
  | FREE_CHAT
  | EXPLORE
  | PRACTICE_OFFERED
  | PRACTICE_ACTIVE
  | PRACTICE_PAUSED
  | FOLLOW_UP
  | CRISIS
deriving DecidableEq, Repr

/-- `PracticeState` — `protocol/types.py`, 7 members. -/
inductive PracticeState
  | CONSENT
  | BASELINE
  | STEP
  | CHECKPOINT
  | ADAPT
  | WRAP_UP
  | FOLLOW_UP
deriving DecidableEq, Repr

/-- `CoachingDecision` — `protocol/types.py`, 5 members. -/
inductive CoachingDecision
  | LISTEN
  | EXPLORE
  | SUGGEST
  | GUIDE
  | ANSWER
deriving DecidableEq, Repr

/-- Modelled from the spec: `SoftMode` is imported by `coaching/fsm.py` from
`protocol/types.py` but its enum definition is absent from the provided
sources; its four members are exactly those used in
`ConversationFSM._STATE_TO_MODE` (EXPLORING, TEACHING, PRACTICING,
REFLECTING), as a string-valued enum like its neighbours. -/
inductive SoftMode
  | EXPLORING
  | TEACHING
  | PRACTICING
  | REFLECTING
deriving DecidableEq, Repr

/-- The `.value` string of a `ConversationState` member. -/
def ConversationState.value : ConversationState → String
  | .FREE_CHAT => "FREE_CHAT"
  | .EXPLORE => "EXPLORE"
  | .PRACTICE_OFFERED => "PRACTICE_OFFERED"
  | .PRACTICE_ACTIVE => "PRACTICE_ACTIVE"
  | .PRACTICE_PAUSED => "PRACTICE_PAUSED"
  | .FOLLOW_UP => "FOLLOW_UP"
  | .CRISIS => "CRISIS"

/-- `ConversationState(raw)` — enum lookup by value; `none` models the
`ValueError` raised on an unknown string. -/
def ConversationState.ofString : String → Option ConversationState
  | "FREE_CHAT" => some .FREE_CHAT
  | "EXPLORE" => some .EXPLORE
  | "PRACTICE_OFFERED" => some .PRACTICE_OFFERED
  | "PRACTICE_ACTIVE" => some .PRACTICE_ACTIVE
  | "PRACTICE_PAUSED" => some .PRACTICE_PAUSED
  | "FOLLOW_UP" => some .FOLLOW_UP
  | "CRISIS" => some .CRISIS
  | _ => none

/-- The `.value` string of a `PracticeState` member. -/
def PracticeState.value : PracticeState → String
  | .CONSENT => "CONSENT"
  | .BASELINE => "BASELINE"
  | .STEP => "STEP"
  | .CHECKPOINT => "CHECKPOINT"
  | .ADAPT => "ADAPT"
  | .WRAP_UP => "WRAP_UP"
  | .FOLLOW_UP => "FOLLOW_UP"

/-- `PracticeState(raw)` — enum lookup by value; `none` models `ValueError`. -/
def PracticeState.ofString : String → Option PracticeState
  | "CONSENT" => some .CONSENT
  | "BASELINE" => some .BASELINE
  | "STEP" => some .STEP
  | "CHECKPOINT" => some .CHECKPOINT
  | "ADAPT" => some .ADAPT
  | "WRAP_UP" => some .WRAP_UP
  | "FOLLOW_UP" => some .FOLLOW_UP
  | _ => none

/-- The `.value` string of a `SoftMode` member (lower-case, matching the
string-enum convention of `protocol/types.py`). -/
def SoftMode.value : SoftMode → String
  | .EXPLORING => "exploring"
  | .TEACHING => "teaching"
  | .PRACTICING => "practicing"
  | .REFLECTING => "reflecting"

/-- `SoftMode(raw)` — enum lookup by value; `none` models `ValueError`. -/
def SoftMode.ofString : String → Option SoftMode
  | "exploring" => some .EXPLORING
  | "teaching" => some .TEACHING
  | "practicing" => some .PRACTICING
  | "reflecting" => some .REFLECTING
  | _ => none

/-! ## `coaching/fsm.py` -/

/-- `_EXPLORE_ALLOWED` — states from which the EXPLORE decision is accepted
(`fsm.py` lines 19-21): `{FREE_CHAT, FOLLOW_UP}`. -/
def _EXPLORE_ALLOWED (s : ConversationState) : Bool :=
  s = .FREE_CHAT || s = .FOLLOW_UP

/-- `_SUGGEST_ALLOWED` — states from which the SUGGEST decision is accepted
(`fsm.py` lines 24-30): `{FREE_CHAT, EXPLORE, FOLLOW_UP}`. -/
def _SUGGEST_ALLOWED (s : ConversationState) : Bool :=
  s = .FREE_CHAT || s = .EXPLORE || s = .FOLLOW_UP

/-- `_PASSTHROUGH` — decisions that never change the conversation state
(`fsm.py` lines 33-35). -/
def _PASSTHROUGH (d : CoachingDecision) : Bool :=
  d = .LISTEN || d = .ANSWER || d = .GUIDE

/-- `ConversationFSM._STATE_TO_MODE` (`fsm.py` lines 42-50).  The Python dict
has an entry for every `ConversationState`, hence a total function. -/
def _STATE_TO_MODE : ConversationState → SoftMode
  | .FREE_CHAT => .EXPLORING
  | .EXPLORE => .EXPLORING
  | .PRACTICE_OFFERED => .TEACHING
  | .PRACTICE_ACTIVE => .PRACTICING
  | .PRACTICE_PAUSED => .EXPLORING
  | .FOLLOW_UP => .REFLECTING
  | .CRISIS => .EXPLORING

/-- The mutable fields of a `ConversationFSM` instance. -/
structure ConversationFSM where
  conversation_state : ConversationState
  practice_state : Option PracticeState
  soft_mode : SoftMode
deriving DecidableEq, Repr

namespace ConversationFSM

/-- `ConversationFSM.__init__` (`fsm.py` lines 52-55). -/
def init : ConversationFSM :=
  { conversation_state := .FREE_CHAT, practice_state := none, soft_mode := .EXPLORING }

/-- `ConversationFSM.transition` (`fsm.py` lines 82-101).  Returns the
success flag paired with the post-call state. -/
def transition (f : ConversationFSM) (decision : CoachingDecision) :
    Bool × ConversationFSM :=
  if _PASSTHROUGH decision then (true, f)
  else if decision = .EXPLORE then
    if _EXPLORE_ALLOWED f.conversation_state then
      (true, { f with conversation_state := .EXPLORE,
                      soft_mode := _STATE_TO_MODE .EXPLORE })
    else (false, f)
  else if decision = .SUGGEST then
    if _SUGGEST_ALLOWED f.conversation_state then
      (true, { f with conversation_state := .PRACTICE_OFFERED,
                      soft_mode := _STATE_TO_MODE .PRACTICE_OFFERED })
    else (false, f)
  else (false, f)

/-- `ConversationFSM.accept_practice` (`fsm.py` lines 107-113). -/
def accept_practice (f : ConversationFSM) : Bool × ConversationFSM :=
  if f.conversation_state ≠ .PRACTICE_OFFERED then (false, f)
  else (true, { f with conversation_state := .PRACTICE_ACTIVE,
                       practice_state := some .CONSENT })

/-- `ConversationFSM.decline_practice` (`fsm.py` lines 115-120). -/
def decline_practice (f : ConversationFSM) : Bool × ConversationFSM :=
  if f.conversation_state ≠ .PRACTICE_OFFERED then (false, f)
  else (true, { f with conversation_state := .FREE_CHAT })

/-- `ConversationFSM.pause_practice` (`fsm.py` lines 122-127).  Note that it
does **not** clear `practice_state`. -/
def pause_practice (f : ConversationFSM) : Bool × ConversationFSM :=
  if f.conversation_state ≠ .PRACTICE_ACTIVE then (false, f)
  else (true, { f with conversation_state := .PRACTICE_PAUSED })

/-- `ConversationFSM.resume_practice` (`fsm.py` lines 129-134). -/
def resume_practice (f : ConversationFSM) : Bool × ConversationFSM :=
  if f.conversation_state ≠ .PRACTICE_PAUSED then (false, f)
  else (true, { f with conversation_state := .PRACTICE_ACTIVE })

/-- `ConversationFSM.complete_practice` (`fsm.py` lines 136-142). -/
def complete_practice (f : ConversationFSM) : Bool × ConversationFSM :=
  if f.conversation_state ≠ .PRACTICE_ACTIVE then (false, f)
  else (true, { f with conversation_state := .FOLLOW_UP, practice_state := none })

/-- `ConversationFSM.advance_practice_step` (`fsm.py` lines 144-156).  The
`ValueError` of `PracticeState(next_step)` is caught and turned into `False`
before any assignment happens. -/
def advance_practice_step (f : ConversationFSM) (next_step : String) :
    Bool × ConversationFSM :=
  if f.conversation_state ≠ .PRACTICE_ACTIVE then (false, f)
  else
    match PracticeState.ofString next_step with
    | none => (false, f)
    | some p => (true, { f with practice_state := some p })

/-- `ConversationFSM.enter_crisis` (`fsm.py` lines 162-166). -/
def enter_crisis (f : ConversationFSM) : Bool × ConversationFSM :=
  (true, { f with conversation_state := .CRISIS, practice_state := none })

/-- `ConversationFSM.stabilize_from_crisis` (`fsm.py` lines 168-173). -/
def stabilize_from_crisis (f : ConversationFSM) : Bool × ConversationFSM :=
  if f.conversation_state ≠ .CRISIS then (false, f)
  else (true, { f with conversation_state := .FREE_CHAT })

end ConversationFSM

/-- One invocation of a `ConversationFSM` operation, as enumerated in the
class body of `fsm.py`. -/
inductive FSMOp
  | transition (decision : CoachingDecision)
  | accept_practice
  | decline_practice
  | pause_practice
  | resume_practice
  | complete_practice
  | advance_practice_step (next_step : String)
  | enter_crisis
  | stabilize_from_crisis
deriving DecidableEq, Repr

/-- Dispatch an `FSMOp` to the corresponding method. -/
def FSMOp.step (op : FSMOp) (f : ConversationFSM) : Bool × ConversationFSM :=
  match op with
  | .transition d => f.transition d
  | .accept_practice => f.accept_practice
  | .decline_practice => f.decline_practice
  | .pause_practice => f.pause_practice
  | .resume_practice => f.resume_practice
  | .complete_practice => f.complete_practice
  | .advance_practice_step s => f.advance_practice_step s
  | .enter_crisis => f.enter_crisis
  | .stabilize_from_crisis => f.stabilize_from_crisis

/-- Run a sequence of operations from a starting state, keeping only the
final state. -/
def runOps (f : ConversationFSM) : List FSMOp → ConversationFSM
  | [] => f
  | op :: ops => runOps (op.step f).2 ops

/-- The states a freshly constructed `ConversationFSM` can be driven into by
any sequence of its own operations. -/
inductive ReachableFSM : ConversationFSM → Prop
  | init : ReachableFSM ConversationFSM.init
  | step (op : FSMOp) {f : ConversationFSM} (h : ReachableFSM f) :
      ReachableFSM (op.step f).2

theorem reachable_runOps (ops : List FSMOp) :
    ReachableFSM (runOps ConversationFSM.init ops) := by
  suffices h : ∀ (ops : List FSMOp) (f : ConversationFSM), ReachableFSM f →
      ReachableFSM (runOps f ops) from h ops _ ReachableFSM.init
  intro ops
  induction ops with
  | nil => intro f hf; exact hf
  | cons op ops ih =>
      intro f hf
      exact ih _ (ReachableFSM.step op hf)

/-! ### FSM serialization (`fsm.py` lines 179-205) -/

/-- The plain dict produced by `ConversationFSM.to_dict`: string values for
the two enum layers (`practice_state` may be `None`) and the soft mode.  The
`Option` on `soft_mode` models `data.get("soft_mode")` possibly finding no
key in dicts of external origin. -/
structure FSMDict where
  conversation_state : String
  practice_state : Option String
  soft_mode : Option String
deriving DecidableEq, Repr

/-- `ConversationFSM.to_dict` (`fsm.py` lines 179-187). -/
def ConversationFSM.to_dict (f : ConversationFSM) : FSMDict :=
  { conversation_state := f.conversation_state.value
    practice_state := f.practice_state.map PracticeState.value
    soft_mode := some f.soft_mode.value }

/-- `ConversationFSM.from_dict` (`fsm.py` lines 189-205).  `none` models the
`ValueError` escaping when an enum lookup fails.  When the dict carries no
`soft_mode`, the mode is recovered via `_STATE_TO_MODE.get(state, EXPLORING)`
— the dict is total, so the default is never consulted. -/
def ConversationFSM.from_dict (data : FSMDict) : Option ConversationFSM := do
  let cs ← ConversationState.ofString data.conversation_state
  let ps ← match data.practice_state with
    | none => some none
    | some raw => (PracticeState.ofString raw).map some
  let sm ← match data.soft_mode with
    | some raw => SoftMode.ofString raw
    | none => some (_STATE_TO_MODE cs)
  some { conversation_state := cs, practice_state := ps, soft_mode := sm }

theorem conversation_ofString_value (s : ConversationState) :
    ConversationState.ofString s.value = some s := by cases s <;> rfl

theorem practice_ofString_value (p : PracticeState) :
    PracticeState.ofString p.value = some p := by cases p <;> rfl

theorem softMode_ofString_value (m : SoftMode) :
    SoftMode.ofString m.value = some m := by cases m <;> rfl

/-- Round-trip for arbitrary FSM values (reachable or not). -/
theorem from_dict_to_dict (f : ConversationFSM) :
    ConversationFSM.from_dict f.to_dict = some f := by
  obtain ⟨cs, ps, sm⟩ := f
  cases ps with
  | none =>
      simp [ConversationFSM.to_dict, ConversationFSM.from_dict,
        conversation_ofString_value, softMode_ofString_value]
  | some p =>
      simp [ConversationFSM.to_dict, ConversationFSM.from_dict,
        conversation_ofString_value, softMode_ofString_value,
        practice_ofString_value]

/-! ### FSM invariant: where `practice_state` is populated -/

/-- `practice_state` is populated exactly in the two in-practice conversation
states.  (`pause_practice` keeps the inner step so `resume_practice` can
continue from it.) -/
def practiceStateInv (f : ConversationFSM) : Prop :=
  f.practice_state ≠ none ↔
    (f.conversation_state = .PRACTICE_ACTIVE ∨ f.conversation_state = .PRACTICE_PAUSED)

theorem practiceStateInv_step (op : FSMOp) (f : ConversationFSM)
    (h : practiceStateInv f) : practiceStateInv (op.step f).2 := by
  cases op with
  | transition d =>
      obtain ⟨cs, ps, sm⟩ := f
      unfold practiceStateInv at h ⊢
      cases d <;> cases cs <;>
        simp_all [FSMOp.step, ConversationFSM.transition, _PASSTHROUGH,
          _EXPLORE_ALLOWED, _SUGGEST_ALLOWED]
  | advance_practice_step s =>
      obtain ⟨cs, ps, sm⟩ := f
      unfold practiceStateInv at h ⊢
      cases hps : PracticeState.ofString s <;> cases cs <;>
        simp_all [FSMOp.step, ConversationFSM.advance_practice_step, hps]
  | _ =>
      unfold FSMOp.step ConversationFSM.accept_practice
        ConversationFSM.decline_practice ConversationFSM.pause_practice
        ConversationFSM.resume_practice ConversationFSM.complete_practice
        ConversationFSM.enter_crisis ConversationFSM.stabilize_from_crisis
      unfold practiceStateInv at h ⊢
      split_ifs <;> simp_all

theorem practiceStateInv_reachable {f : ConversationFSM}
    (h : ReachableFSM f) : practiceStateInv f := by
  induction h with
  | init => simp [practiceStateInv, ConversationFSM.init]
  | step op _ ih => exact practiceStateInv_step op _ ih

/-- The FSM reached by offering a practice, accepting it, then pausing it. -/
def pausedAfterAccept : ConversationFSM :=
  runOps ConversationFSM.init
    [.transition .SUGGEST, .accept_practice, .pause_practice]

/-- C3 counterexample: the claim says `transition(EXPLORE)` succeeds from
EXPLORE, but `_EXPLORE_ALLOWED` is only `{FREE_CHAT, FOLLOW_UP}`: from the
(reachable) state EXPLORE the call returns `False`. -/
theorem transition_explore_from_explore_fails :
    ReachableFSM (runOps ConversationFSM.init [.transition .EXPLORE])
    ∧ (runOps ConversationFSM.init
        [.transition .EXPLORE]).conversation_state = .EXPLORE
    ∧ ((runOps ConversationFSM.init
        [.transition .EXPLORE]).transition .EXPLORE).1 = false :=
  ⟨reachable_runOps _, by decide, by decide⟩

/-- C3 (amended): `transition(EXPLORE)` succeeds (returning `True` and
setting the conversation state to EXPLORE) exactly when the current state is
FREE_CHAT or FOLLOW_UP; otherwise it returns `False` leaving the state
unchanged; LISTEN, ANSWER and GUIDE always return `True`. -/
theorem transition_explore_characterization (f : ConversationFSM) :
    ((f.transition .EXPLORE).1 = true ↔
      (f.conversation_state = .FREE_CHAT ∨ f.conversation_state = .FOLLOW_UP))
    ∧ ((f.transition .EXPLORE).1 = true →
        (f.transition .EXPLORE).2.conversation_state = .EXPLORE)
    ∧ ((f.transition .EXPLORE).1 = false → (f.transition .EXPLORE).2 = f)
    ∧ (f.transition .LISTEN).1 = true
    ∧ (f.transition .ANSWER).1 = true
    ∧ (f.transition .GUIDE).1 = true := by
  obtain ⟨cs, ps, sm⟩ := f
  cases cs <;>
    simp [ConversationFSM.transition, _PASSTHROUGH, _EXPLORE_ALLOWED,
      _SUGGEST_ALLOWED]

/-- Witness for the amended C3 theorem at the initial state. -/
theorem transition_explore_characterization_witness :
    ((ConversationFSM.init.transition .EXPLORE).1 = true ↔
      (ConversationFSM.init.conversation_state = .FREE_CHAT ∨
       ConversationFSM.init.conversation_state = .FOLLOW_UP))
    ∧ ((ConversationFSM.init.transition .EXPLORE).1 = true →
        (ConversationFSM.init.transition .EXPLORE).2.conversation_state = .EXPLORE)
    ∧ ((ConversationFSM.init.transition .EXPLORE).1 = false →
        (ConversationFSM.init.transition .EXPLORE).2 = ConversationFSM.init)
    ∧ (ConversationFSM.init.transition .LISTEN).1 = true
    ∧ (ConversationFSM.init.transition .ANSWER).1 = true
    ∧ (ConversationFSM.init.transition .GUIDE).1 = true :=
  transition_explore_characterization ConversationFSM.init

/-- C4 counterexample: the reachable state offer → accept → pause is
PRACTICE_PAUSED yet still carries `practice_state = CONSENT`, so
"`practice_state` non-None iff PRACTICE_ACTIVE" fails on the code. -/
theorem paused_state_keeps_practice_state :
    ReachableFSM pausedAfterAccept
    ∧ pausedAfterAccept.conversation_state = .PRACTICE_PAUSED
    ∧ pausedAfterAccept.practice_state = some .CONSENT :=
  ⟨reachable_runOps _, by decide, by decide⟩

/-- C4 (amended): in every reachable `ConversationFSM` state,
`practice_state` is non-None iff the conversation state is PRACTICE_ACTIVE
**or** PRACTICE_PAUSED (pausing preserves the inner step). -/
theorem practice_state_iff_active_or_paused {f : ConversationFSM}
    (h : ReachableFSM f) :
    f.practice_state ≠ none ↔
      (f.conversation_state = .PRACTICE_ACTIVE ∨
       f.conversation_state = .PRACTICE_PAUSED) :=
  practiceStateInv_reachable h

/-- Witness for the amended C4 theorem at the initial state. -/
theorem practice_state_iff_active_or_paused_witness :
    ConversationFSM.init.practice_state ≠ none ↔
      (ConversationFSM.init.conversation_state = .PRACTICE_ACTIVE ∨
       ConversationFSM.init.conversation_state = .PRACTICE_PAUSED) :=
  practice_state_iff_active_or_paused ReachableFSM.init

/-- C9: `from_dict ∘ to_dict` restores every reachable FSM exactly
(conversation state, practice state and soft mode all round-trip), and every
pairing of PRACTICE_ACTIVE with each of the seven `PracticeState` values is
indeed reachable. -/
theorem serialization_round_trip :
    (∀ f : ConversationFSM, ReachableFSM f →
      ConversationFSM.from_dict f.to_dict = some f)
    ∧ (∀ p : PracticeState,
        ReachableFSM { conversation_state := .PRACTICE_ACTIVE,
                       practice_state := some p, soft_mode := .TEACHING }) := by
  constructor
  · intro f _
    exact from_dict_to_dict f
  · intro p
    have h : ({ conversation_state := .PRACTICE_ACTIVE,
                practice_state := some p,
                soft_mode := .TEACHING } : ConversationFSM) =
        runOps ConversationFSM.init
          [.transition .SUGGEST, .accept_practice,
           .advance_practice_step p.value] := by
      cases p <;> rfl
    rw [h]
    exact reachable_runOps _

/-- Witness for C9 at the initial state. -/
theorem serialization_round_trip_witness :
    ConversationFSM.from_dict ConversationFSM.init.to_dict =
      some ConversationFSM.init :=
  serialization_round_trip.1 ConversationFSM.init ReachableFSM.init

/-- C10: every FSM operation that reports failure (`False`) leaves the whole
state — conversation state, practice state and soft mode — unchanged.  (All
operations are total functions here because `fsm.py` catches the only
possible exception, the `ValueError` inside `advance_practice_step`.) -/
theorem failed_ops_do_not_mutate (op : FSMOp) (f : ConversationFSM)
    (h : (op.step f).1 = false) : (op.step f).2 = f := by
  cases op with
  | transition d =>
      obtain ⟨cs, ps, sm⟩ := f
      cases d <;> cases cs <;>
        simp_all [FSMOp.step, ConversationFSM.transition, _PASSTHROUGH,
          _EXPLORE_ALLOWED, _SUGGEST_ALLOWED]
  | advance_practice_step s =>
      unfold FSMOp.step ConversationFSM.advance_practice_step at h ⊢
      split_ifs at h ⊢ with h1
      · rfl
      · cases hps : PracticeState.ofString s <;> simp_all
  | _ =>
      unfold FSMOp.step ConversationFSM.accept_practice
        ConversationFSM.decline_practice ConversationFSM.pause_practice
        ConversationFSM.resume_practice ConversationFSM.complete_practice
        ConversationFSM.enter_crisis ConversationFSM.stabilize_from_crisis
        at h ⊢
      split_ifs at h ⊢ <;> simp_all

/-- Witness for C10: `accept_practice` from the initial state fails and
mutates nothing. -/
theorem failed_ops_do_not_mutate_witness :
    (FSMOp.accept_practice.step ConversationFSM.init).1 = false
    ∧ (FSMOp.accept_practice.step ConversationFSM.init).2 =
        ConversationFSM.init :=
  ⟨by decide, failed_ops_do_not_mutate _ _ (by decide)⟩

/-! ## Coaching dataclasses (`protocol/types.py`, coaching section) -/

/-- `EmotionalState` — six magnitudes, all defaulting to `0.0`. -/
structure EmotionalState where
  anxiety : ℚ := 0
  rumination : ℚ := 0
  avoidance : ℚ := 0
  perfectionism : ℚ := 0
  self_criticism : ℚ := 0
  symptom_fixation : ℚ := 0
deriving DecidableEq, Repr

/-- `max(es.anxiety, …, es.symptom_fixation)` as computed inline in
`coach_policy.py` (lines 72-79) and `opportunity_scorer.py` (lines 98-105). -/
def EmotionalState.maxSignal (es : EmotionalState) : ℚ :=
  max es.anxiety (max es.rumination (max es.avoidance
    (max es.perfectionism (max es.self_criticism es.symptom_fixation))))

/-- `ContextState` — `risk_level` is a plain string in the source. -/
structure ContextState where
  risk_level : String
  emotional_state : EmotionalState
  readiness_for_practice : ℚ
  coaching_hypotheses : List String
  confidence : ℚ
  candidate_constraints : List String
deriving DecidableEq, Repr

/-- `OpportunityResult`.  `cooldown_until` is an ISO timestamp string in the
source; here the timestamp is carried as a rational number of hours on the
same clock as the `now` argument of `OpportunityScorer.score`. -/
structure OpportunityResult where
  opportunity_score : ℚ
  allow_proactive_suggest : Bool
  reason_codes : List String
  cooldown_until : Option ℚ := none
deriving DecidableEq, Repr

/-- `PracticeCandidateRanked`. -/
structure PracticeCandidateRanked where
  practice_id : String
  final_score : ℚ
  confidence : ℚ
  reason_codes : List String
  blocked_by : Option (List String) := none
  alternative_ids : Option (List String) := none
deriving DecidableEq, Repr

/-- `CoachDecision`. -/
structure CoachDecision where
  decision : CoachingDecision
  selected_practice_id : Option String := none
  style : String := "warm_supportive"
  must_ask_consent : Bool := false
deriving DecidableEq, Repr

/-! ## `coaching/coach_policy.py` -/

/-- `SUGGEST_SCORE_THRESHOLD = 0.58`. -/
def SUGGEST_SCORE_THRESHOLD : ℚ := 58/100

/-- `EXPLORE_CONFIDENCE_THRESHOLD = 0.5`. -/
def EXPLORE_CONFIDENCE_THRESHOLD : ℚ := 1/2

/-- `CoachPolicyEngine.decide` (`coach_policy.py` lines 43-136): the strict
top-to-bottom rule table.  Rules 6 and 7 are shared by the two ways of
falling through rule 5 (empty ranking, or a weak top score). -/
def CoachPolicyEngine.decide (context : ContextState)
    (opportunity : OpportunityResult)
    (ranked_practices : List PracticeCandidateRanked) : CoachDecision :=
  let max_signal := context.emotional_state.maxSignal
  -- Rules 6 and 7 (reached when no earlier rule fires)
  let low_rules : CoachDecision :=
    if max_signal > 3/10 then
      { decision := .GUIDE, style := "warm_curious" }
    else
      { decision := .LISTEN, style := "warm_supportive" }
  -- Rule 1: crisis
  if context.risk_level = "high" ∨ context.risk_level = "crisis" then
    { decision := .LISTEN, style := "warm_supportive" }
  -- Rule 2: no signal + no practices
  else if max_signal < 15/100 ∧ ranked_practices = [] then
    { decision := .ANSWER, style := "direct_helpful" }
  -- Rule 3: low confidence
  else if context.confidence < EXPLORE_CONFIDENCE_THRESHOLD then
    { decision := .EXPLORE, style := "warm_curious" }
  -- Rule 4: opportunity not allowed
  else if opportunity.allow_proactive_suggest = false then
    if max_signal > 4/10 then
      { decision := .EXPLORE, style := "warm_curious" }
    else
      { decision := .LISTEN, style := "warm_supportive" }
  else
    -- Rule 5: top practice strong enough
    match ranked_practices with
    | [] => low_rules
    | top :: _ =>
        if top.final_score ≥ SUGGEST_SCORE_THRESHOLD then
          { decision := .SUGGEST, selected_practice_id := some top.practice_id,
            style := "warm_directive", must_ask_consent := true }
        else low_rules

/-- The failing input of C1, taken from `tests/test_coach_policy.py`
(`test_crisis_with_practices_suggests`): risk=crisis, anxiety=0.9,
confidence=0.9, one ranked practice `box_breathing` at `final_score=0.9`. -/
def c1Context : ContextState :=
  { risk_level := "crisis"
    emotional_state := { anxiety := 9/10 }
    readiness_for_practice := 6/10
    coaching_hypotheses := ["thought_loop"]
    confidence := 9/10
    candidate_constraints := [] }

def c1Opportunity : OpportunityResult :=
  { opportunity_score := 9/10, allow_proactive_suggest := true,
    reason_codes := [] }

def c1Ranked : List PracticeCandidateRanked :=
  [{ practice_id := "box_breathing", final_score := 9/10, confidence := 9/10,
     reason_codes := ["match_anxiety"] }]

/-- C1: at risk=crisis with a non-empty ranking `CoachPolicyEngine.decide`
returns LISTEN with no selected practice — not the SUGGEST of the top
practice the claim (and the repository's own `TestCrisisNeverBlocks` tests)
demand; so the code, not the claim, is at fault. -/
theorem crisis_with_practices_returns_listen :
    (CoachPolicyEngine.decide c1Context c1Opportunity c1Ranked).decision =
      .LISTEN
    ∧ (CoachPolicyEngine.decide c1Context c1Opportunity
        c1Ranked).selected_practice_id = none
    ∧ (CoachPolicyEngine.decide c1Context c1Opportunity c1Ranked).decision ≠
      .SUGGEST := by
  refine ⟨?_, ?_, ?_⟩ <;> decide

/-! ## `coaching/opportunity_scorer.py` -/

/-- `MIN_MESSAGES_BETWEEN_SUGGESTS = 3`. -/
def MIN_MESSAGES_BETWEEN_SUGGESTS : ℤ := 3

/-- `MAX_CONSECUTIVE_DECLINES = 2`. -/
def MAX_CONSECUTIVE_DECLINES : ℕ := 2

/-- `COOLDOWN_HOURS_AFTER_DECLINES = 24`. -/
def COOLDOWN_HOURS_AFTER_DECLINES : ℚ := 24

/-- `OPPORTUNITY_THRESHOLD = 0.60`. -/
def OPPORTUNITY_THRESHOLD : ℚ := 60/100

/-- One entry of `recent_suggestions`: a dict whose `"outcome"` key may be
absent (`suggestion.get("outcome")`). -/
structure Suggestion where
  outcome : Option String
deriving DecidableEq, Repr

/-- The backward count of trailing `"declined"` outcomes
(`opportunity_scorer.py` lines 76-81: iterate `reversed(recent_suggestions)`
and stop at the first non-decline). -/
def consecutiveTrailingDeclines (recent_suggestions : List Suggestion) : ℕ :=
  (recent_suggestions.reverse.takeWhile
    (fun s => s.outcome == some "declined")).length

/-- `OpportunityScorer.score` (`opportunity_scorer.py` lines 32-128).
`now` is the current clock reading in hours (standing in for
`datetime.now(timezone.utc)`), so the cooldown branch emits
`now + COOLDOWN_HOURS_AFTER_DECLINES`. -/
def OpportunityScorer.score (context : ContextState)
    (recent_suggestions : List Suggestion)
    (messages_since_last_suggest : ℤ) (now : ℚ) : OpportunityResult :=
  -- 1. Risk-level gate
  if context.risk_level = "high" ∨ context.risk_level = "crisis" then
    { opportunity_score := 0, allow_proactive_suggest := false,
      reason_codes := ["risk_level_too_high"] }
  -- 2. Minimum message cadence
  else if messages_since_last_suggest < MIN_MESSAGES_BETWEEN_SUGGESTS then
    { opportunity_score := 0, allow_proactive_suggest := false,
      reason_codes := ["too_few_messages"] }
  -- 3./4. Consecutive-declines cooldown
  else if MAX_CONSECUTIVE_DECLINES ≤ consecutiveTrailingDeclines recent_suggestions then
    { opportunity_score := 0, allow_proactive_suggest := false,
      reason_codes := ["consecutive_declines_cooldown"],
      cooldown_until := some (now + COOLDOWN_HOURS_AFTER_DECLINES) }
  else
    -- 5. Composite score
    let signal_strength := context.emotional_state.maxSignal
    let readiness := context.readiness_for_practice
    let confidence := context.confidence
    let raw_score := 45/100 * signal_strength + 30/100 * readiness
      + 25/100 * confidence
    let score := max 0 (min 1 raw_score)
    -- 6. Threshold decision
    let allow_proactive_suggest := decide (score ≥ OPPORTUNITY_THRESHOLD)
    -- 7. Reason codes
    let reason_codes :=
      (if signal_strength > 6/10 then ["elevated_emotional_signals"] else [])
      ++ (if readiness > 1/2 then ["user_appears_ready"] else [])
    { opportunity_score := score,
      allow_proactive_suggest := allow_proactive_suggest,
      reason_codes := reason_codes }

/-- The concrete input of C5's worked example: anxiety=0.8, rumination=0.6,
confidence=0.7, readiness=0.6, risk=low. -/
def c5Context : ContextState :=
  { risk_level := "low"
    emotional_state := { anxiety := 8/10, rumination := 6/10 }
    readiness_for_practice := 6/10
    coaching_hypotheses := []
    confidence := 7/10
    candidate_constraints := [] }

/-- C5: when no hard gate fires (risk not high/crisis, cadence ≥ 3, fewer
than 2 trailing declines) the opportunity score is
`clamp(0.45·maxSignal + 0.30·readiness + 0.25·confidence, 0, 1)` and
`allow_proactive_suggest` holds iff the score reaches 0.60; at the worked
example the score is 0.715 (= 143/200) and suggestion is allowed. -/
theorem opportunity_score_formula :
    (∀ (context : ContextState) (recent_suggestions : List Suggestion)
       (messages_since_last_suggest : ℤ) (now : ℚ),
      context.risk_level ≠ "high" →
      context.risk_level ≠ "crisis" →
      3 ≤ messages_since_last_suggest →
      consecutiveTrailingDeclines recent_suggestions < 2 →
      (OpportunityScorer.score context recent_suggestions
          messages_since_last_suggest now).opportunity_score =
        max 0 (min 1 (45/100 * context.emotional_state.maxSignal
          + 30/100 * context.readiness_for_practice
          + 25/100 * context.confidence))
      ∧ ((OpportunityScorer.score context recent_suggestions
            messages_since_last_suggest now).allow_proactive_suggest = true ↔
          60/100 ≤ (OpportunityScorer.score context recent_suggestions
            messages_since_last_suggest now).opportunity_score))
    ∧ (OpportunityScorer.score c5Context [] 5 0).opportunity_score = 143/200
    ∧ (OpportunityScorer.score c5Context [] 5 0).allow_proactive_suggest
        = true := by
  have heval : OpportunityScorer.score c5Context [] 5 0 =
      { opportunity_score := 143/200, allow_proactive_suggest := true,
        reason_codes := ["elevated_emotional_signals", "user_appears_ready"] } := by
    norm_num [OpportunityScorer.score, c5Context, consecutiveTrailingDeclines,
      EmotionalState.maxSignal, MIN_MESSAGES_BETWEEN_SUGGESTS,
      MAX_CONSECUTIVE_DECLINES, OPPORTUNITY_THRESHOLD, max_def, min_def]
    exact ⟨by decide, by decide⟩
  refine ⟨?_, by rw [heval], by rw [heval]⟩
  intro context recent msgs now h1 h2 h3 h4
  have hrisk : ¬(context.risk_level = "high" ∨ context.risk_level = "crisis") := by
    rintro (h | h) <;> simp_all
  have hmsgs : ¬(msgs < MIN_MESSAGES_BETWEEN_SUGGESTS) := by
    simp only [MIN_MESSAGES_BETWEEN_SUGGESTS]; omega
  have hdecl : ¬(MAX_CONSECUTIVE_DECLINES ≤ consecutiveTrailingDeclines recent) := by
    simp only [MAX_CONSECUTIVE_DECLINES]; omega
  unfold OpportunityScorer.score
  rw [if_neg hrisk, if_neg hmsgs, if_neg hdecl]
  exact ⟨rfl, by simp [OPPORTUNITY_THRESHOLD, ge_iff_le]⟩

/-- Witness for C5 at the worked example: hypotheses hold and the score
formula yields 0.715 with the suggestion allowed. -/
theorem opportunity_score_formula_witness :
    (OpportunityScorer.score c5Context [] 5 0).opportunity_score =
      max 0 (min 1 (45/100 * c5Context.emotional_state.maxSignal
        + 30/100 * c5Context.readiness_for_practice
        + 25/100 * c5Context.confidence))
    ∧ ((OpportunityScorer.score c5Context [] 5 0).allow_proactive_suggest
        = true ↔
        60/100 ≤ (OpportunityScorer.score c5Context [] 5 0).opportunity_score) :=
  opportunity_score_formula.1 c5Context [] 5 0 (by decide) (by decide)
    (by decide) (by decide)

/-! ## `protocol/safety.py` -/

/-- `RiskLevel` — `protocol/types.py`. -/
inductive RiskLevel
  | SAFE
  | CAUTION_MILD
  | CAUTION_ELEVATED
  | CRISIS
deriving DecidableEq, Repr

/-- Modelled from the spec: `SafetyLevel` is imported by `protocol/safety.py`
from `protocol/types.py` but its enum definition is absent from the provided
sources; per §4.2 of the spec its members are GREEN, YELLOW and RED. -/
inductive SafetyLevel
  | GREEN
  | YELLOW
  | RED
deriving DecidableEq, Repr

/-- `_CRISIS_RESOURCES` (`safety.py` lines 17-26), a dict queried with
`.get(lang)`. -/
def _CRISIS_RESOURCES (lang : String) : Option String :=
  if lang = "ru" then
    some "Телефон доверия: 8-800-2000-122 (бесплатно, круглосуточно). Ты не одна/один. Я здесь."
  else if lang = "en" then
    some "Crisis line: 988 (Suicide & Crisis Lifeline, US) or text HOME to 741741. You\x27re not alone. I\x27m here."
  else none

/-- `_SPECIALIST_SUGGESTION` (`safety.py` lines 28-37). -/
def _SPECIALIST_SUGGESTION (lang : String) : Option String :=
  if lang = "ru" then
    some "Кстати, с этим также могут помочь специалисты — хочешь, подскажу как найти?"
  else if lang = "en" then
    some "By the way, a specialist could also help with this — want me to suggest how to find one?"
  else none

/-- `SafetyResult` (`safety.py` lines 40-59), with the dataclass defaults. -/
structure SafetyResult where
  safety_level : SafetyLevel := .GREEN
  protocol_id : Option String := none
  signals : List String := []
  confidence : ℚ := 1
  specialist_suggestion : Option String := none
  crisis_resources : Option String := none
  block_practice : Bool := false
  risk_level : RiskLevel := .SAFE
  immediacy : String := "none"
  source : String := "rules"
  classifier_version : String := "1.0"
  policy_version : String := "1.0"
deriving DecidableEq, Repr

/-- `_RED_PATTERNS` (`safety.py` lines 67-85): regex source, protocol id,
signal name. -/
def _RED_PATTERNS : List (String × String × String) := [
  ("хочу\\s+умереть", "S1", "suicide_explicit_ru"),
  ("покончить\\s+с\\s+собой", "S1", "suicide_explicit_ru"),
  ("суицид", "S1", "suicide_keyword_ru"),
  ("убить\\s+себя", "S1", "suicide_explicit_ru"),
  ("не\\s+хочу\\s+жить", "S1", "suicide_wish_ru"),
  ("лучше\\s+бы\\s+меня\\s+не\\s+было", "S1", "suicide_wish_ru"),
  ("kill\\s+my\\s*self", "S1", "suicide_explicit_en"),
  ("want\\s+to\\s+die", "S1", "suicide_explicit_en"),
  ("end\\s+my\\s+life", "S1", "suicide_explicit_en"),
  ("реж[уе]\\s+себ[яе]", "S1", "self_harm_ru"),
  ("причин(ить|яю)\\s+себе\\s+(боль|вред)", "S1", "self_harm_ru"),
  ("hurt\\s+my\\s*self", "S1", "self_harm_en"),
  ("убь[юёе]\\s+(его|её|их|тебя)", "S2", "violence_threat_ru"),
  ("хочу\\s+навредить", "S2", "violence_intent_ru"),
  ("kill\\s+(him|her|them)", "S2", "violence_threat_en")]

/-- `_YELLOW_PATTERNS` (`safety.py` lines 88-97). -/
def _YELLOW_PATTERNS : List (String × String × String) := [
  ("голоса\\s+говорят", "S3", "psychosis_hallucination_ru"),
  ("за\\s+мной\\s+следят", "S3", "psychosis_paranoia_ru"),
  ("я\\s+избранн", "S3", "psychosis_grandiosity_ru"),
  ("(муж|парень|партн[её]р)\\s+(бь[её]т|удари)", "S6", "dv_physical_ru"),
  ("бь[её]т\\s+меня", "S6", "dv_physical_ru"),
  ("боюсь\\s+партн[её]р", "S6", "dv_fear_ru")]

/-- `SafetyClassifier.check_hard_rules` (`safety.py` lines 114-152).  The
compiled-regex engine is abstracted as the `regexSearch pattern text` oracle; the
first matching pattern of each list wins, RED scanned before YELLOW. -/
def check_hard_rules (regexSearch : String → String → Bool)
    (classifier_version policy_version : String) (text : String) :
    Option SafetyResult :=
  match _RED_PATTERNS.find? (fun pr => regexSearch pr.1 text) with
  | some pr =>
      some { safety_level := .RED, protocol_id := some pr.2.1,
             signals := [pr.2.2], confidence := 1,
             crisis_resources := _CRISIS_RESOURCES "ru",
             block_practice := false, risk_level := .CRISIS,
             immediacy := "possible", source := "rules",
             classifier_version := classifier_version,
             policy_version := policy_version }
  | none =>
      match _YELLOW_PATTERNS.find? (fun pr => regexSearch pr.1 text) with
      | some pr =>
          some { safety_level := .YELLOW, protocol_id := some pr.2.1,
                 signals := [pr.2.2], confidence := 1,
                 specialist_suggestion := _SPECIALIST_SUGGESTION "ru",
                 block_practice := false, risk_level := .CAUTION_ELEVATED,
                 immediacy := "possible", source := "rules",
                 classifier_version := classifier_version,
                 policy_version := policy_version }
      | none => none

/-- The structured body parsed from the Layer-2 model answer: each field is
`data.get(key, default)`, so absent keys are `none` here and defaulted at the
use site, exactly as in `_classify_with_llm`. -/
structure LLMSafetyData where
  safety_level : Option String
  protocol : Option String
  signals : Option (List String)
  confidence : Option ℚ
  immediacy : Option String
deriving DecidableEq, Repr

/-- Outcome of the Layer-2 call: `failure` covers every exception caught by
the bare `except` of `_classify_with_llm` (transport error, `json.loads`
failure, a non-numeric `confidence`); `success` carries the parsed dict. -/
inductive LLMClassifyOutcome
  | failure
  | success (data : LLMSafetyData)
deriving DecidableEq, Repr

/-- `SafetyClassifier._classify_with_llm` (`safety.py` lines 184-257) after
the call/parse.  The guard on line 215,
`level_str == "red" or confidence >= 0.7 and level_str == "red"`, is
logically `level_str == "red"` (Python precedence), and the
low-confidence-RED branch of lines 226-229 re-assigns the same RED level and
appends the `low_confidence_crisis` signal. -/
def _classify_with_llm (classifier_version policy_version : String)
    (outcome : LLMClassifyOutcome) : SafetyResult :=
  match outcome with
  | .failure =>
      { safety_level := .GREEN, signals := ["llm_error"], confidence := 0,
        block_practice := false, risk_level := .SAFE, source := "heuristic",
        classifier_version := classifier_version,
        policy_version := policy_version }
  | .success data =>
      let level_str := (data.safety_level.getD "green").toLower
      let confidence := data.confidence.getD (1/2)
      let levels : SafetyLevel × RiskLevel :=
        if level_str = "red" then (.RED, .CRISIS)
        else if level_str = "yellow" then (.YELLOW, .CAUTION_ELEVATED)
        else (.GREEN, .SAFE)
      let signals :=
        if level_str = "red" ∧ confidence < 7/10 then
          data.signals.getD [] ++ ["low_confidence_crisis"]
        else data.signals.getD []
      { safety_level := levels.1, protocol_id := data.protocol,
        signals := signals, confidence := confidence,
        specialist_suggestion :=
          if levels.1 = .YELLOW then _SPECIALIST_SUGGESTION "ru" else none,
        crisis_resources :=
          if levels.1 = .RED then _CRISIS_RESOURCES "ru" else none,
        block_practice := false, risk_level := levels.2,
        immediacy := data.immediacy.getD "none", source := "model",
        classifier_version := classifier_version,
        policy_version := policy_version }

/-- `SafetyClassifier.classify` (`safety.py` lines 154-182): Layer-1 rules
first; then the model layer when a provider is configured (`hasLLM`); else
the GREEN `no_llm_classifier` result. -/
def classify (regexSearch : String → String → Bool)
    (classifier_version policy_version : String)
    (hasLLM : Bool) (llm : LLMClassifyOutcome) (text : String) : SafetyResult :=
  match check_hard_rules regexSearch classifier_version policy_version text with
  | some hard_result => hard_result
  | none =>
      if hasLLM then _classify_with_llm classifier_version policy_version llm
      else
        { safety_level := .GREEN, signals := ["no_llm_classifier"],
          confidence := 0, block_practice := false, risk_level := .SAFE,
          source := "heuristic", classifier_version := classifier_version,
          policy_version := policy_version }

/-- C2: on every classification path — Layer-1 rules, Layer-2 model, the
no-backend path, the failure path — the result has `block_practice = False`;
crisis-resource text is attached exactly on RED results and the specialist
suggestion exactly on YELLOW results, so no outcome ever suppresses the
normal reply. -/
theorem classify_never_blocks (regexSearch : String → String → Bool)
    (classifier_version policy_version : String)
    (hasLLM : Bool) (llm : LLMClassifyOutcome) (text : String) :
    (classify regexSearch classifier_version policy_version hasLLM llm
        text).block_practice = false
    ∧ ((classify regexSearch classifier_version policy_version hasLLM llm
        text).crisis_resources ≠ none ↔
       (classify regexSearch classifier_version policy_version hasLLM llm
        text).safety_level = .RED)
    ∧ ((classify regexSearch classifier_version policy_version hasLLM llm
        text).specialist_suggestion ≠ none ↔
       (classify regexSearch classifier_version policy_version hasLLM llm
        text).safety_level = .YELLOW) := by
  unfold classify check_hard_rules
  cases hr : _RED_PATTERNS.find? (fun pr => regexSearch pr.1 text) with
  | some pr => simp [_CRISIS_RESOURCES]
  | none =>
      cases hy : _YELLOW_PATTERNS.find? (fun pr => regexSearch pr.1 text) with
      | some pr => simp [_SPECIALIST_SUGGESTION]
      | none =>
          cases hasLLM with
          | false => simp
          | true =>
              cases llm with
              | failure => simp [_classify_with_llm]
              | success data =>
                  unfold _classify_with_llm
                  by_cases h1 : (data.safety_level.getD "green").toLower = "red"
                  · simp [h1, _CRISIS_RESOURCES]
                  · by_cases h2 :
                      (data.safety_level.getD "green").toLower = "yellow"
                    · simp [h1, h2, _SPECIALIST_SUGGESTION]
                    · simp [h1, h2]

/-! ## `protocol/llm_adapter.py` — circuit breaker -/

/-- `CircuitBreaker` (`llm_adapter.py` lines 332-349): a failure-timestamp
list plus its construction parameters (`threshold=3`,
`window_seconds=60.0`).  Timestamps are rationals on the monotonic clock. -/
structure CircuitBreaker where
  threshold : ℕ
  window_seconds : ℚ
  failures : List ℚ
deriving DecidableEq, Repr

namespace CircuitBreaker

/-- A freshly constructed breaker: `self._failures = []`. -/
def mk0 (threshold : ℕ) (window_seconds : ℚ) : CircuitBreaker :=
  { threshold := threshold, window_seconds := window_seconds, failures := [] }

/-- `record_failure` (lines 340-341): append `time.monotonic()`. -/
def record_failure (b : CircuitBreaker) (t : ℚ) : CircuitBreaker :=
  { b with failures := b.failures ++ [t] }

/-- `is_open` (lines 343-346): prune failures older than the window, then
compare the surviving count with the threshold.  Returns the answer paired
with the pruned state (the method mutates `self._failures`). -/
def is_open (b : CircuitBreaker) (now : ℚ) : Bool × CircuitBreaker :=
  let failures := b.failures.filter (fun t => now - t < b.window_seconds)
  (decide (b.threshold ≤ failures.length), { b with failures := failures })

/-- `reset` (lines 348-349): `self._failures.clear()`. -/
def reset (b : CircuitBreaker) : CircuitBreaker :=
  { b with failures := [] }

end CircuitBreaker

/-- One call against a `CircuitBreaker`, with the monotonic-clock reading at
which it happens. -/
inductive BreakerEvent
  | record_failure (t : ℚ)
  | reset
  | is_open (t : ℚ)
deriving DecidableEq, Repr

/-- Replay a call sequence against a breaker, keeping the final state. -/
def runBreaker (b : CircuitBreaker) : List BreakerEvent → CircuitBreaker
  | [] => b
  | .record_failure t :: es => runBreaker (b.record_failure t) es
  | .reset :: es => runBreaker b.reset es
  | .is_open t :: es => runBreaker (b.is_open t).2 es

/-- The failure timestamps recorded since the most recent `reset` of the
sequence (the specification-side count: `is_open` queries do not record
anything). -/
def recordedSinceReset (es : List BreakerEvent) : List ℚ :=
  es.foldl
    (fun acc e =>
      match e with
      | .record_failure t => acc ++ [t]
      | .reset => []
      | .is_open _ => acc)
    []

/-- Every `is_open` query in the sequence happens no later than `t` (the
monotonic clock never runs backwards). -/
def queriesBefore (t : ℚ) (es : List BreakerEvent) : Prop :=
  ∀ e ∈ es, ∀ u, e = BreakerEvent.is_open u → u ≤ t

theorem runBreaker_threshold :
    ∀ (es : List BreakerEvent) (b : CircuitBreaker),
      (runBreaker b es).threshold = b.threshold := by
  intro es
  induction es with
  | nil => intro b; rfl
  | cons e es ih =>
      intro b
      cases e <;>
        simp [runBreaker, ih, CircuitBreaker.record_failure,
          CircuitBreaker.reset, CircuitBreaker.is_open]

theorem filter_window_runBreaker (w t : ℚ) :
    ∀ (es : List BreakerEvent) (b : CircuitBreaker) (r : List ℚ),
      b.window_seconds = w →
      queriesBefore t es →
      b.failures.filter (fun u => t - u < w) = r.filter (fun u => t - u < w) →
      (runBreaker b es).window_seconds = w ∧
      (runBreaker b es).failures.filter (fun u => t - u < w) =
        (es.foldl
          (fun acc e =>
            match e with
            | .record_failure u => acc ++ [u]
            | .reset => []
            | .is_open _ => acc) r).filter (fun u => t - u < w) := by
  intro es
  induction es with
  | nil => intro b r hw _ hr; exact ⟨hw, hr⟩
  | cons e es ih =>
      intro b r hw hq hr
      have hq' : queriesBefore t es := by
        intro x hx u hxu
        exact hq x (List.mem_cons_of_mem _ hx) u hxu
      cases e with
      | record_failure u =>
          refine ih _ (r ++ [u]) hw hq' ?_
          simp only [CircuitBreaker.record_failure, List.filter_append, hr]
      | reset =>
          refine ih _ [] hw hq' ?_
          simp [CircuitBreaker.reset]
      | is_open u =>
          have hu : u ≤ t := hq _ (List.mem_cons_self _ _) u rfl
          refine ih _ r ?_ hq' ?_
          · simp [CircuitBreaker.is_open, hw]
          · simp only [CircuitBreaker.is_open, hw]
            rw [List.filter_filter, ← hr]
            congr 1
            funext v
            by_cases hv : t - v < w
            · have : v > t - w := by linarith
              have : u - v < w := by linarith
              simp [hv, this]
            · simp [hv]

/-- C8: replaying any sequence of `record_failure` / `reset` / `is_open`
calls on a fresh breaker (with monotone call times), `is_open` at time `t`
answers `True` exactly when at least `threshold` of the failures recorded
since the last reset fall inside the rolling window at `t`; `is_open` prunes
every failure older than the window from the stored list before the test;
and `reset` clears the failure list. -/
theorem breaker_open_iff_threshold_failures :
    (∀ (th : ℕ) (w t : ℚ) (es : List BreakerEvent),
      queriesBefore t es →
      (((runBreaker (CircuitBreaker.mk0 th w) es).is_open t).1 = true ↔
        th ≤ ((recordedSinceReset es).filter
          (fun u => t - u < w)).length))
    ∧ (∀ (b : CircuitBreaker) (now : ℚ),
        (b.is_open now).2.failures =
          b.failures.filter (fun u => now - u < b.window_seconds))
    ∧ (∀ b : CircuitBreaker, b.reset.failures = []) := by
  refine ⟨?_, fun b now => rfl, fun b => rfl⟩
  intro th w t es hq
  have h := filter_window_runBreaker w t es (CircuitBreaker.mk0 th w) []
    rfl hq rfl
  simp only [CircuitBreaker.is_open, h.1, h.2]
  simp [recordedSinceReset, runBreaker_threshold, CircuitBreaker.mk0]

/-- Witness for C8: three failures at times 0, 1, 2 inside a 60-second
window trip a threshold-3 breaker queried at time 2. -/
theorem breaker_open_iff_threshold_failures_witness :
    queriesBefore 2
      [.record_failure 0, .record_failure 1, .record_failure 2]
    ∧ (((runBreaker (CircuitBreaker.mk0 3 60)
          [.record_failure 0, .record_failure 1, .record_failure 2]).is_open
            2).1 = true ↔
        3 ≤ ((recordedSinceReset
          [.record_failure 0, .record_failure 1, .record_failure 2]).filter
            (fun u => 2 - u < 60)).length) := by
  constructor
  · intro e he u heu
    fin_cases he <;> simp_all
  · exact breaker_open_iff_threshold_failures.1 3 60 2 _
      (by intro e he u heu; fin_cases he <;> simp_all)

/-! ## `protocol/llm_adapter.py` — generation adapter -/

/-- `LLMContract` (`protocol/types.py` lines 108-126), with message lists
flattened to role/content pairs. -/
structure LLMContract where
  dialogue_state : String
  generation_task : String
  instruction : String
  persona_summary : String
  user_summary : String
  recent_messages : List (String × String) := []
  max_messages : ℤ := 2
  max_chars_per_message : ℤ := 500
  language : String := "ru"
  must_include : List String := []
  must_not : List String := []
  ui_mode : String := "text"
  practice_context : Option String := none
  user_response_to : Option String := none
deriving DecidableEq, Repr

/-- `ValidationResult` (`llm_adapter.py` lines 160-165). -/
structure ValidationResult where
  passed : Bool
  code : String
  reason : Option String := none
  critical : Bool := false
deriving DecidableEq, Repr

/-- `CheckResult` (`style_validator.py` lines 21-25): style-check results
carry no `critical` field. -/
structure CheckResult where
  passed : Bool
  code : String
  reason : Option String := none
deriving DecidableEq, Repr

/-- `STATE_FALLBACKS` (`llm_adapter.py` lines 105-117). -/
def STATE_FALLBACKS : List (String × String) := [
  ("SAFETY_CHECK",
   "Я рядом. Если вам сейчас тяжело, пожалуйста, обратитесь на линию помощи: 8-800-2000-122."),
  ("ESCALATION",
   "Пожалуйста, обратитесь на линию помощи: 8-800-2000-122. Это бесплатно и анонимно."),
  ("INTAKE",
   "Давайте начнём знакомство. Как вы себя чувствуете сегодня?"),
  ("FORMULATION",
   "Понимаю, что вам непросто. Давайте разберёмся вместе — что сейчас беспокоит больше всего?"),
  ("GOAL_SETTING",
   "Давайте выберем, над чем поработаем сегодня. Что для вас сейчас важнее всего?"),
  ("MODULE_SELECT",
   "Выберите практику, которая подходит вам прямо сейчас."),
  ("PRACTICE",
   "Давайте продолжим практику. Готовы к следующему шагу?"),
  ("REFLECTION",
   "Как вы себя чувствуете после практики? Оцените от 1 до 10."),
  ("REFLECTION_LITE",
   "Как ощущения после практики? Оцените коротко."),
  ("HOMEWORK",
   "Отлично. Попробуйте повторить эту практику завтра. Готовы?"),
  ("SESSION_END",
   "Спасибо за сессию. Берегите себя, до встречи!")]

/-- `DEFAULT_FALLBACK` (`llm_adapter.py` line 119). -/
def DEFAULT_FALLBACK : String :=
  "Понимаю. Давайте попробуем по-другому. Что сейчас важнее всего?"

/-- `LLMAdapter._get_fallback` (lines 531-532):
`STATE_FALLBACKS.get(dialogue_state, DEFAULT_FALLBACK)`. -/
def _get_fallback (dialogue_state : String) : String :=
  match STATE_FALLBACKS.find? (fun p => p.1 = dialogue_state) with
  | some p => p.2
  | none => DEFAULT_FALLBACK

/-- `_CRITICAL_CODES` (line 356). -/
def _CRITICAL_CODES : List String :=
  ["no_banned_content", "no_playful_high_risk", "no_diagnosis",
   "no_medication", "safety_lexicon"]

/-- The `has_critical_contract or has_critical_style` test of
`LLMAdapter.generate` (lines 428-439), applied to the full validation
outputs (failures are filtered inside). -/
def hasCriticalFailure (contract_results : List ValidationResult)
    (style_results : List CheckResult) : Bool :=
  ((contract_results.filter (fun r => !r.passed)).any
    (fun r => r.critical || _CRITICAL_CODES.contains r.code))
  || ((style_results.filter (fun r => !r.passed)).any
    (fun r => _CRITICAL_CODES.contains r.code))

/-- The observable trace of one `LLMAdapter.generate` call: the returned
text, how many times `_call_llm` reached the backend, and how many
`record_failure` / `reset` calls hit the breaker during the call. -/
structure GenerateTrace where
  text : String
  backend_calls : ℕ
  breaker_failures : ℕ
  breaker_resets : ℕ
deriving DecidableEq, Repr

/-- The `for attempt in range(self._max_repeat_count)` loop of
`LLMAdapter.generate` (lines 408-466).  `backend attempt` is the outcome of
`_call_llm` on that attempt (`none` = exception); `contract_validate` and
`style_validate` abstract `ResponseValidator.validate(·, contract)` and
`validate_style` (whose extra inputs — risk level, tone, long-form flag —
are fixed for the whole call).  `remaining` counts the attempts left, so the
`attempt < max_repeat_count - 1` retry test is `remaining ≠ 1`. -/
def generateLoop (contract_validate : String → List ValidationResult)
    (style_validate : String → List CheckResult)
    (backend : ℕ → Option String) (fallback : String) :
    (remaining attempt calls fails resets : ℕ) → GenerateTrace
  | 0, _, calls, fails, resets =>
      { text := fallback, backend_calls := calls, breaker_failures := fails,
        breaker_resets := resets }
  | remaining + 1, attempt, calls, fails, resets =>
      match backend attempt with
      | none =>
          -- transport failure: record breaker failure, continue
          generateLoop contract_validate style_validate backend fallback
            remaining (attempt + 1) (calls + 1) (fails + 1) resets
      | some raw =>
          let contract_results := contract_validate raw
          let style_results := style_validate raw
          let all_failures := contract_results.filter (fun r => !r.passed)
          let style_failures := style_results.filter (fun r => !r.passed)
          if hasCriticalFailure contract_results style_results then
            -- critical: record breaker failure, return fallback at once
            { text := fallback, backend_calls := calls + 1,
              breaker_failures := fails + 1, breaker_resets := resets }
          else if all_failures.isEmpty && style_failures.isEmpty then
            -- clean pass: reset breaker, return text verbatim
            { text := raw, backend_calls := calls + 1,
              breaker_failures := fails, breaker_resets := resets + 1 }
          else if remaining = 0 then
            -- last attempt with non-critical failures: record and fall back
            { text := fallback, backend_calls := calls + 1,
              breaker_failures := fails + 1, breaker_resets := resets }
          else
            -- correction retry with rebuilt messages
            generateLoop contract_validate style_validate backend fallback
              remaining (attempt + 1) (calls + 1) fails resets

/-- `LLMAdapter.generate` (lines 390-466): breaker-open check, then the
attempt loop.  `breaker_open` is `self._breaker.is_open()` at entry. -/
def generate (contract_validate : String → List ValidationResult)
    (style_validate : String → List CheckResult)
    (backend : ℕ → Option String) (contract : LLMContract)
    (breaker_open : Bool) (max_repeat_count : ℕ) : GenerateTrace :=
  if breaker_open then
    { text := _get_fallback contract.dialogue_state, backend_calls := 0,
      breaker_failures := 0, breaker_resets := 0 }
  else
    generateLoop contract_validate style_validate backend
      (_get_fallback contract.dialogue_state) max_repeat_count 0 0 0 0

/-- C7: with the breaker open at entry, `generate` touches the backend zero
times and immediately returns the fallback for the contract's dialogue
state; a dialogue state missing from `STATE_FALLBACKS` yields
`DEFAULT_FALLBACK`. -/
theorem generate_breaker_open_skips_backend
    (contract_validate : String → List ValidationResult)
    (style_validate : String → List CheckResult)
    (backend : ℕ → Option String) (contract : LLMContract)
    (max_repeat_count : ℕ) :
    generate contract_validate style_validate backend contract true
        max_repeat_count =
      { text := _get_fallback contract.dialogue_state, backend_calls := 0,
        breaker_failures := 0, breaker_resets := 0 }
    ∧ (STATE_FALLBACKS.find? (fun p => p.1 = contract.dialogue_state) = none →
        _get_fallback contract.dialogue_state = DEFAULT_FALLBACK) := by
  constructor
  · rfl
  · intro h
    unfold _get_fallback
    rw [h]

/-- Witness for C7: an open breaker with an unknown dialogue state makes no
backend call and returns the generic default fallback. -/
theorem generate_breaker_open_skips_backend_witness :
    generate (fun _ => []) (fun _ => []) (fun _ => some "ok")
        { dialogue_state := "UNKNOWN_STATE", generation_task := "t",
          instruction := "", persona_summary := "", user_summary := "" }
        true 2 =
      { text := _get_fallback "UNKNOWN_STATE", backend_calls := 0,
        breaker_failures := 0, breaker_resets := 0 }
    ∧ _get_fallback "UNKNOWN_STATE" = DEFAULT_FALLBACK :=
  have h := generate_breaker_open_skips_backend (fun _ => [])
    (fun _ => []) (fun _ => some "ok")
    { dialogue_state := "UNKNOWN_STATE", generation_task := "t",
      instruction := "", persona_summary := "", user_summary := "" } 2
  ⟨h.1, h.2 (by decide)⟩

/-- C6: with the breaker closed and a first backend response that fails a
critical validation check, `generate` makes exactly one backend call,
records exactly one breaker failure (and no reset), and returns the fixed
fallback for the contract's dialogue state — no correction retry. -/
theorem generate_critical_failure_no_retry
    (contract_validate : String → List ValidationResult)
    (style_validate : String → List CheckResult)
    (backend : ℕ → Option String) (contract : LLMContract)
    (max_repeat_count : ℕ) (raw : String)
    (hrepeat : 1 ≤ max_repeat_count)
    (hfirst : backend 0 = some raw)
    (hcrit : hasCriticalFailure (contract_validate raw)
      (style_validate raw) = true) :
    generate contract_validate style_validate backend contract false
        max_repeat_count =
      { text := _get_fallback contract.dialogue_state, backend_calls := 1,
        breaker_failures := 1, breaker_resets := 0 } := by
  obtain ⟨m, rfl⟩ : ∃ m, max_repeat_count = m + 1 :=
    ⟨max_repeat_count - 1, by omega⟩
  unfold generate generateLoop
  rw [if_neg (by simp), hfirst]
  simp only [hcrit, if_true]

/-- Witness for C6: a response flagged by the `no_diagnosis` critical check
uses its single backend call and comes back as the PRACTICE fallback. -/
theorem generate_critical_failure_no_retry_witness :
    (1 : ℕ) ≤ 2
    ∧ (fun _ : ℕ => some "у вас депрессия") 0 = some "у вас депрессия"
    ∧ hasCriticalFailure
        ((fun _ : String =>
          [{ passed := false, code := "no_diagnosis",
             reason := some "diagnostic language", critical := true }])
          "у вас депрессия")
        ((fun _ : String => ([] : List CheckResult)) "у вас депрессия") = true
    ∧ generate
        (fun _ =>
          [{ passed := false, code := "no_diagnosis",
             reason := some "diagnostic language", critical := true }])
        (fun _ => []) (fun _ => some "у вас депрессия")
        { dialogue_state := "PRACTICE", generation_task := "t",
          instruction := "", persona_summary := "", user_summary := "" }
        false 2 =
      { text := _get_fallback "PRACTICE", backend_calls := 1,
        breaker_failures := 1, breaker_resets := 0 } :=
  ⟨by decide, rfl, by decide,
    generate_critical_failure_no_retry _ _ _ _ 2 "у вас депрессия"
      (by decide) rfl (by decide)⟩
